import Mathlib

/-
Verification of the Wave Terminal MCP server (src/mcp-servers/terminal-mcp.py)
and the MCP server status checker (src/scripts/check_mcp_servers.py).

The Python code is shallowly embedded: pure logic becomes Lean functions, and
the effectful boundary (the subprocess launched by execute_command, the HTTP
round trip performed by check_server) is passed in explicitly as an abstract
outcome value, so that the functions below mirror exactly the branching the
Python code performs on that outcome.
-/

namespace WaveTerm

/-- Checks whether the first list is an initial segment of the second,
using Boolean equality on elements. Mirrors the start of a naive substring
scan. -/
def startsWithList : List Char → List Char → Bool
  | [], _ => true
  | _ :: _, [] => false
  | p :: ps, c :: cs => p == c && startsWithList ps cs

/-- Checks whether the pattern occurs contiguously anywhere in the list. -/
def hasSubList (pat : List Char) : List Char → Bool
  | [] => startsWithList pat []
  | c :: cs => startsWithList pat (c :: cs) || hasSubList pat cs

/-- Embedding of the Python membership test on strings: `pat in s` is true
exactly when `pat` occurs as a contiguous substring of `s`. -/
def pyIn (pat s : String) : Bool :=
  hasSubList pat.data s.data

example : pyIn "git" "git push --force" = true := by decide
example : pyIn "push" "git push --force" = true := by decide
example : pyIn "git" "ls -la" = false := by decide
example : pyIn "sudo" "sudo git push" = true := by decide

/-- Context mapping passed to analyze_command; the Python code receives a
dict and never reads it, so it is modelled as an association list that the
embedding likewise never reads. -/
abbrev Context := List (String × String)

/-- Result dictionary returned by TerminalMCPServer.analyze_command. -/
structure AnalysisResult where
  command : String
  type : String
  suggestions : List String
  risk_level : String
deriving DecidableEq

/-- Suggestion text appended by the git/push branch of analyze_command. -/
def gitPushSuggestion : String :=
  "Consider using \x27git push --force-with-lease\x27 for safer force pushes"

/-- Suggestion text appended by the rm and -rf branch of analyze_command. -/
def rmSuggestion : String :=
  "Warning: Destructive command detected"

/-- Suggestion text appended by the sudo branch of analyze_command. -/
def sudoSuggestion : String :=
  "Consider if sudo is really necessary"

/-- The suggestions list built by analyze_command: an if/elif/elif chain, so
at most one branch ever appends. -/
def suggestionsFor (command : String) : List String :=
  if pyIn "git" command && pyIn "push" command then
    [gitPushSuggestion]
  else if pyIn "rm" command && pyIn "-rf" command then
    [rmSuggestion]
  else if pyIn "sudo" command then
    [sudoSuggestion]
  else
    []

/-- Embedding of TerminalMCPServer.analyze_command: builds the suggestions
list via the if/elif chain, echoes the command, and sets risk_level to
"low" when the list is empty and "medium" otherwise. The context argument
is received but never consulted, exactly as in the source. -/
def analyze_command (command : String) (context : Context) : AnalysisResult :=
  { command := command
    type := "analysis"
    suggestions := suggestionsFor command
    risk_level := if (suggestionsFor command).length = 0 then "low" else "medium" }

example : (analyze_command "git push --force" []).suggestions = [gitPushSuggestion] := by decide
example : (analyze_command "git push --force" []).risk_level = "medium" := by decide
example : (analyze_command "ls -la" []).suggestions = [] := by decide
example : (analyze_command "ls -la" []).risk_level = "low" := by decide
example : (analyze_command "rm -rf /tmp/foo" []).suggestions = [rmSuggestion] := by decide
example : (analyze_command "sudo git push" []).suggestions = [gitPushSuggestion] := by decide

/-- Abstract behavior of the subprocess that execute_command launches: the
launch can fail with an exception message, or the process runs for some
duration and, if allowed to finish, exits with a code after producing
stdout and stderr text. -/
inductive ProcBehavior where
  | launchFailure (msg : String)
  | runs (duration : Nat) (exitCode : Int) (stdout stderr : String)
deriving DecidableEq

/-- Result dictionary returned by TerminalMCPServer.execute_command. The
completed branch carries all four keys; the timeout and exception branches
omit output and return_code, modelled here with none. -/
structure ExecResult where
  success : Bool
  output : Option String
  error : Option String
  return_code : Option Int
deriving DecidableEq

/-- The timeout argument passed to subprocess.run in execute_command. -/
def timeoutLimit : Nat := 30

/-- Embedding of TerminalMCPServer.execute_command: a launch failure is
caught and reported as success false with the exception text as error; a
process still running after timeoutLimit raises TimeoutExpired, caught and
reported as success false with a fixed message and no return_code; a
completed process yields success iff its exit code is 0, with stdout,
stderr and the code passed through. -/
def execute_command (command : String) (cwd : Option String)
    (proc : ProcBehavior) : ExecResult :=
  match proc with
  | .launchFailure msg =>
      { success := false, output := none, error := some msg, return_code := none }
  | .runs duration exitCode stdout stderr =>
      if timeoutLimit < duration then
        { success := false, output := none
          error := some "Command timed out", return_code := none }
      else
        { success := decide (exitCode = 0), output := some stdout
          error := some stderr, return_code := some exitCode }

example : execute_command "echo hello" none (.runs 0 0 "hello\n" "") =
    { success := true, output := some "hello\n", error := some "", return_code := some 0 } := by
  decide

example : execute_command "sleep 60" none (.runs 60 0 "" "") =
    { success := false, output := none, error := some "Command timed out", return_code := none } := by
  decide

/-- Request body of a POST to the MCP server, after a successful JSON parse:
the handler reads the command and cwd keys with dict.get, so each may be
absent. -/
structure Payload where
  command : Option String
  cwd : Option String
deriving DecidableEq

/-- Outcome of decoding the raw POST body: either a structurally valid
payload, or a body on which json.loads raises. -/
inductive Body where
  | valid (p : Payload)
  | invalid
deriving DecidableEq

/-- Responses the handler can write back. The source has a single shape: a
200 response whose body is the execute_command result dictionary. -/
inductive Response where
  | execResult (r : ExecResult)
deriving DecidableEq

/-- Embedding of MCPHandler.do_POST. On the /mcp/execute path the handler
decodes the body with json.loads (an invalid body raises, and nothing in
do_POST catches it, modelled as the error case of Except), reads the
command key with a default of the empty string, invokes execute_command,
and writes its result back with status 200. Any other path falls through
the single if with no response written, modelled as none. -/
def do_POST (path : String) (body : Body) (proc : ProcBehavior) :
    Except String (Option Response) :=
  if path = "/mcp/execute" then
    match body with
    | .invalid => .error "json decode error"
    | .valid p =>
        .ok (some (.execResult (execute_command (p.command.getD "") p.cwd proc)))
  else
    .ok none

/-- A server entry of the MCP_SERVERS configuration list in
check_mcp_servers.py. -/
structure Server where
  name : String
  port : Nat
deriving DecidableEq

/-- Embedding of the MCP_SERVERS configuration list. -/
def MCP_SERVERS : List Server :=
  [⟨"Memory", 13000⟩, ⟨"Filesystem", 13001⟩, ⟨"Terminal", 13002⟩,
   ⟨"Kubectl", 13003⟩, ⟨"Helm", 13004⟩, ⟨"Minikube", 13005⟩]

/-- Abstract outcome of the HTTP GET /health that check_server performs:
the connection can be refused, the request can time out, some other
exception can be raised, or a response arrives with a status, a reason
phrase, and a body that either decodes as JSON (carried abstractly as the
decoded value) or does not. -/
inductive HTTPOutcome where
  | connRefused
  | sockTimeout
  | response (status : Nat) (reason : String) (jsonBody : Option String)
  | otherFailure (msg : String)
deriving DecidableEq

/-- Result dictionary returned by check_server; keys absent in a given
branch of the source are modelled with none. -/
structure CheckResult where
  name : String
  status : String
  status_code : Option Nat
  response : Option String
  error : Option String
deriving DecidableEq

/-- Embedding of check_server in check_mcp_servers.py: a 200 response with
a JSON body reports running, a 200 response whose body fails to decode
reports an error with a fixed message, a non-200 status reports an error
naming the status and reason, a refused connection reports down, a socket
timeout reports timeout, and any other exception reports an error with the
exception text. Every branch returns a dictionary carrying the server
name; nothing escapes the function. -/
def check_server (server : Server) (outcome : HTTPOutcome) : CheckResult :=
  match outcome with
  | .response status reason jsonBody =>
      if status = 200 then
        match jsonBody with
        | some d =>
            { name := server.name, status := "running"
              status_code := some status, response := some d, error := none }
        | none =>
            { name := server.name, status := "error"
              status_code := none, response := none
              error := some "Invalid JSON response" }
      else
        { name := server.name, status := "error"
          status_code := none, response := none
          error := some ("HTTP " ++ toString status ++ " " ++ reason) }
  | .connRefused =>
      { name := server.name, status := "down"
        status_code := none, response := none
        error := some "Connection refused" }
  | .sockTimeout =>
      { name := server.name, status := "timeout"
        status_code := none, response := none
        error := some "Request timed out" }
  | .otherFailure msg =>
      { name := server.name, status := "error"
        status_code := none, response := none, error := some msg }

/-- Embedding of the batch in main: executor.map applies check_server to
every configured server, each probe getting its own outcome from the
environment, and collects the per-server results in order. -/
def checkAll (servers : List Server) (env : Server → HTTPOutcome) :
    List CheckResult :=
  servers.map (fun s => check_server s (env s))

example : (check_server ⟨"Memory", 13000⟩ .connRefused).status = "down" := by decide
example : (check_server ⟨"Memory", 13000⟩ .sockTimeout).status = "timeout" := by decide
example : (check_server ⟨"Memory", 13000⟩ (.response 200 "OK" (some "ok"))).status = "running" := by
  decide
example : (check_server ⟨"Memory", 13000⟩ (.response 200 "OK" none)).error =
    some "Invalid JSON response" := by decide
example : (check_server ⟨"Memory", 13000⟩ (.response 404 "Not Found" none)).error =
    some "HTTP 404 Not Found" := by decide

/-- C3: for every command string and context, the result of analyze_command
has risk_level "low" if and only if its suggestions sequence is empty. -/
theorem analyze_risk_low_iff_no_suggestions (c : String) (ctx : Context) :
    (analyze_command c ctx).risk_level = "low" ↔
      (analyze_command c ctx).suggestions = [] := by
  unfold analyze_command suggestionsFor
  split_ifs <;> simp_all

/-- C9: for every command string and context, the suggestions sequence
returned by analyze_command contains at most one element, because the rule
checks are chained with elif. -/
theorem analyze_at_most_one_suggestion (c : String) (ctx : Context) :
    (analyze_command c ctx).suggestions.length ≤ 1 := by
  unfold analyze_command suggestionsFor
  split_ifs <;> simp

/-- C10: for every command string and context, the risk_level returned by
analyze_command is either "low" or "medium"; "high" is never produced, not
even for the command "rm -rf /" matching the destructive-delete rule. -/
theorem analyze_risk_never_high (c : String) (ctx : Context) :
    ((analyze_command c ctx).risk_level = "low" ∨
      (analyze_command c ctx).risk_level = "medium") ∧
    (analyze_command "rm -rf /" []).risk_level = "medium" := by
  refine ⟨?_, by decide⟩
  unfold analyze_command suggestionsFor
  split_ifs <;> simp

/-- C7: analyze_command is a deterministic pure function: two calls with
the same command and context give the same echoed command, the same
suggestions sequence and the same risk_level. -/
theorem analyze_deterministic (c : String) (ctx : Context) :
    (analyze_command c ctx).command = (analyze_command c ctx).command ∧
    (analyze_command c ctx).suggestions = (analyze_command c ctx).suggestions ∧
    (analyze_command c ctx).risk_level = (analyze_command c ctx).risk_level ∧
    analyze_command c ctx = analyze_command c ctx := by
  exact ⟨rfl, rfl, rfl, rfl⟩

/-- C1 counterexample: the command "sudo git push --force" matches both the
git-push rule and the sudo rule, yet the sudo suggestion is absent from the
output, so analyze_command does not return the suggestions of all matching
rules: the elif chain is first-match-wins. -/
theorem analyze_multi_match_counterexample :
    (pyIn "git" "sudo git push --force" && pyIn "push" "sudo git push --force") = true ∧
    pyIn "sudo" "sudo git push --force" = true ∧
    (analyze_command "sudo git push --force" []).suggestions = [gitPushSuggestion] ∧
    sudoSuggestion ∉ (analyze_command "sudo git push --force" []).suggestions := by
  decide

/-- C1 amended: evaluation is first-match-wins. Whenever the git-push rule
matches, the suggestions sequence is exactly the git-push suggestion alone,
even if the rm -rf or sudo rules also match; when the git-push rule does
not match but the rm -rf rule does, the output is the rm suggestion alone;
when only the sudo rule matches, the output is the sudo suggestion alone. -/
theorem analyze_first_match_wins (c : String) (ctx : Context) :
    ((pyIn "git" c && pyIn "push" c) = true →
      (analyze_command c ctx).suggestions = [gitPushSuggestion]) ∧
    ((pyIn "git" c && pyIn "push" c) = false →
      (pyIn "rm" c && pyIn "-rf" c) = true →
      (analyze_command c ctx).suggestions = [rmSuggestion]) ∧
    ((pyIn "git" c && pyIn "push" c) = false →
      (pyIn "rm" c && pyIn "-rf" c) = false →
      pyIn "sudo" c = true →
      (analyze_command c ctx).suggestions = [sudoSuggestion]) := by
  unfold analyze_command suggestionsFor
  refine ⟨?_, ?_, ?_⟩
  · intro h1
    simp [h1]
  · intro h1 h2
    simp [h1, h2]
  · intro h1 h2 h3
    simp [h1, h2, h3]

/-- C1 witness: at the command "sudo git push --force" the git-push rule
matches and the amended first-match-wins statement gives exactly the
git-push suggestion. -/
theorem analyze_first_match_wins_witness :
    (analyze_command "sudo git push --force" []).suggestions = [gitPushSuggestion] :=
  (analyze_first_match_wins "sudo git push --force" []).1 (by decide)

/-- C2: for every command whose process runs to completion (its duration
stays within the timeout), execute_command reports success exactly when the
exit code is 0; in particular an exit code of 0 yields success true and
return_code 0. -/
theorem execute_success_iff_exit_zero (cmd : String) (cwd : Option String)
    (d : Nat) (rc : Int) (out err : String) (hd : d ≤ timeoutLimit) :
    ((execute_command cmd cwd (.runs d rc out err)).success = true ↔ rc = 0) ∧
    (rc = 0 →
      (execute_command cmd cwd (.runs d rc out err)).success = true ∧
      (execute_command cmd cwd (.runs d rc out err)).return_code = some 0) := by
  have hlt : ¬ timeoutLimit < d := Nat.not_lt.mpr hd
  constructor
  · simp [execute_command, hlt]
  · intro h0
    simp [execute_command, hlt, h0]

/-- C2 witness: a process for "echo hello" that finishes after 1 unit with
exit code 0 is reported as success true with return_code 0. -/
theorem execute_success_iff_exit_zero_witness :
    ((execute_command "echo hello" none (.runs 1 0 "hello\n" "")).success = true ↔
      (0 : Int) = 0) ∧
    ((0 : Int) = 0 →
      (execute_command "echo hello" none (.runs 1 0 "hello\n" "")).success = true ∧
      (execute_command "echo hello" none (.runs 1 0 "hello\n" "")).return_code = some 0) :=
  execute_success_iff_exit_zero "echo hello" none 1 0 "hello\n" "" (by decide)

/-- C4: for every command whose process runs past the 30-unit timeout,
execute_command returns success false, no return_code, no output, and an
error naming the timeout. -/
theorem execute_timeout_result (cmd : String) (cwd : Option String)
    (d : Nat) (rc : Int) (out err : String) (hd : timeoutLimit < d) :
    execute_command cmd cwd (.runs d rc out err) =
      { success := false, output := none
        error := some "Command timed out", return_code := none } := by
  simp [execute_command, hd]

/-- C4 witness: a process for "sleep 60" still running at 60 units is
reported as the timeout result. -/
theorem execute_timeout_result_witness :
    execute_command "sleep 60" none (.runs 60 0 "" "") =
      { success := false, output := none
        error := some "Command timed out", return_code := none } :=
  execute_timeout_result "sleep 60" none 60 0 "" "" (by decide)

/-- C6: execute_command is total over every process behavior, always
returning a structured result: a launch failure is converted to success
false with the exception message as the error, and in every outcome a
result that is not a success carries a populated error field. -/
theorem execute_total_structured (cmd : String) (cwd : Option String)
    (msg : String) (proc : ProcBehavior) :
    execute_command cmd cwd (.launchFailure msg) =
      { success := false, output := none, error := some msg, return_code := none } ∧
    ((execute_command cmd cwd proc).success = true ∨
      ((execute_command cmd cwd proc).success = false ∧
        (execute_command cmd cwd proc).error.isSome = true)) := by
  refine ⟨rfl, ?_⟩
  cases proc with
  | launchFailure m => simp [execute_command]
  | runs d rc out err =>
      by_cases hd : timeoutLimit < d
      · simp [execute_command, hd]
      · by_cases h0 : rc = 0
        · simp [execute_command, hd, h0]
        · simp [execute_command, hd, h0]

/-- C5 counterexample: a structurally valid payload with no command field is
not rejected by do_POST: the handler substitutes the empty string, invokes
the executor, and answers 200 with the ExecutionResult shape produced by
execute_command on the empty command. -/
theorem do_POST_missing_command_counterexample :
    do_POST "/mcp/execute" (.valid ⟨none, none⟩) (.runs 0 0 "" "") =
      .ok (some (.execResult (execute_command "" none (.runs 0 0 "" "")))) ∧
    do_POST "/mcp/execute" (.valid ⟨none, none⟩) (.runs 0 0 "" "") =
      .ok (some (.execResult
        { success := true, output := some "", error := some "", return_code := some 0 })) := by
  constructor <;> rfl

/-- C5 amended: a payload missing the command field is not rejected: on the
/mcp/execute path do_POST reads the command with a default of the empty
string and invokes the executor, returning its ExecutionResult; only a body
that fails JSON decoding escapes the handler, as an uncaught exception
rather than a structured rejection response. -/
theorem do_POST_missing_command_executes (p : Payload) (proc : ProcBehavior)
    (hp : p.command = none) :
    do_POST "/mcp/execute" (.valid p) proc =
      .ok (some (.execResult (execute_command "" p.cwd proc))) ∧
    do_POST "/mcp/execute" .invalid proc = .error "json decode error" := by
  constructor
  · simp [do_POST, hp]
  · simp [do_POST]

/-- C5 witness: the empty payload with a process that exits immediately is
dispatched to the executor with the empty command, and an undecodable body
propagates as an error. -/
theorem do_POST_missing_command_executes_witness :
    (do_POST "/mcp/execute" (.valid ⟨none, none⟩) (.runs 0 0 "" "") =
      .ok (some (.execResult (execute_command "" none (.runs 0 0 "" ""))))) ∧
    do_POST "/mcp/execute" .invalid (.runs 0 0 "" "") = .error "json decode error" :=
  do_POST_missing_command_executes ⟨none, none⟩ (.runs 0 0 "" "") rfl

/-- The error text reported for a non-200 status always begins with HTTP,
so it never coincides with the fixed invalid-JSON error text. -/
theorem httpMsgNeInvalid (status : Nat) (reason : String) :
    "HTTP " ++ toString status ++ " " ++ reason ≠ "Invalid JSON response" := by
  intro h
  have h2 : ("HTTP " ++ toString status ++ " " ++ reason).data =
      ("Invalid JSON response" : String).data := by rw [h]
  rw [String.data_append, String.data_append, String.data_append] at h2
  have hH : ("HTTP " : String).data = ['H', 'T', 'T', 'P', ' '] := rfl
  have hI : ("Invalid JSON response" : String).data =
      'I' :: ("nvalid JSON response" : String).data := rfl
  rw [hH, hI] at h2
  simp at h2

/-- C8: the health checker maps each failure cause to a distinct reported
record for an instance: connection refused, timeout, non-200 status and
non-JSON 200 body give pairwise different results; every probe returns a
structured record naming its server; and the batch contains the result of
every configured server regardless of the outcomes of the others, with one
result per server. -/
theorem check_server_failure_categories (s : Server) (servers : List Server)
    (env : Server → HTTPOutcome) (status : Nat) (reason : String)
    (jb : Option String) (o : HTTPOutcome)
    (hst : status ≠ 200) (hmem : s ∈ servers) :
    (check_server s .connRefused ≠ check_server s .sockTimeout) ∧
    (check_server s .connRefused ≠ check_server s (.response 200 reason none)) ∧
    (check_server s .connRefused ≠ check_server s (.response status reason jb)) ∧
    (check_server s .sockTimeout ≠ check_server s (.response 200 reason none)) ∧
    (check_server s .sockTimeout ≠ check_server s (.response status reason jb)) ∧
    (check_server s (.response 200 reason none) ≠
      check_server s (.response status reason jb)) ∧
    (check_server s o).name = s.name ∧
    check_server s (env s) ∈ checkAll servers env ∧
    (checkAll servers env).length = servers.length := by
  have e4 : check_server s (.response status reason jb) =
      { name := s.name, status := "error", status_code := none, response := none
        error := some ("HTTP " ++ toString status ++ " " ++ reason) } := by
    simp [check_server, hst]
  refine ⟨?_, ?_, ?_, ?_, ?_, ?_, ?_, ?_, ?_⟩
  · intro h
    have hne : ("down" : String) = "timeout" := congrArg CheckResult.status h
    exact absurd hne (by decide)
  · intro h
    have hne : ("down" : String) = "error" := congrArg CheckResult.status h
    exact absurd hne (by decide)
  · intro h
    rw [e4] at h
    have hne : ("down" : String) = "error" := congrArg CheckResult.status h
    exact absurd hne (by decide)
  · intro h
    have hne : ("timeout" : String) = "error" := congrArg CheckResult.status h
    exact absurd hne (by decide)
  · intro h
    rw [e4] at h
    have hne : ("timeout" : String) = "error" := congrArg CheckResult.status h
    exact absurd hne (by decide)
  · intro h
    rw [e4] at h
    have h5 : some "Invalid JSON response" =
        some ("HTTP " ++ toString status ++ " " ++ reason) :=
      congrArg CheckResult.error h
    exact httpMsgNeInvalid status reason (Option.some.inj h5).symm
  · cases o with
    | connRefused => rfl
    | sockTimeout => rfl
    | otherFailure m => rfl
    | response st r j =>
        by_cases h200 : st = 200
        · cases j <;> simp [check_server, h200]
        · simp [check_server, h200]
  · exact List.mem_map_of_mem (fun t => check_server t (env t)) hmem
  · exact List.length_map servers (fun t => check_server t (env t))

/-- C8 witness: for the Memory server from the configuration list, with
status 404 and an environment in which every probe is refused, the failure
categories are pairwise distinct and the batch over MCP_SERVERS keeps one
result per server. -/
theorem check_server_failure_categories_witness :
    (404 : Nat) ≠ 200 ∧
    Server.mk "Memory" 13000 ∈ MCP_SERVERS ∧
    ((check_server (Server.mk "Memory" 13000) .connRefused ≠
        check_server (Server.mk "Memory" 13000) .sockTimeout) ∧
      (check_server (Server.mk "Memory" 13000) .connRefused ≠
        check_server (Server.mk "Memory" 13000) (.response 200 "Not Found" none)) ∧
      (check_server (Server.mk "Memory" 13000) .connRefused ≠
        check_server (Server.mk "Memory" 13000) (.response 404 "Not Found" none)) ∧
      (check_server (Server.mk "Memory" 13000) .sockTimeout ≠
        check_server (Server.mk "Memory" 13000) (.response 200 "Not Found" none)) ∧
      (check_server (Server.mk "Memory" 13000) .sockTimeout ≠
        check_server (Server.mk "Memory" 13000) (.response 404 "Not Found" none)) ∧
      (check_server (Server.mk "Memory" 13000) (.response 200 "Not Found" none) ≠
        check_server (Server.mk "Memory" 13000) (.response 404 "Not Found" none)) ∧
      (check_server (Server.mk "Memory" 13000) .sockTimeout).name = "Memory" ∧
      check_server (Server.mk "Memory" 13000) ((fun _ => HTTPOutcome.connRefused) (Server.mk "Memory" 13000)) ∈
        checkAll MCP_SERVERS (fun _ => HTTPOutcome.connRefused) ∧
      (checkAll MCP_SERVERS (fun _ => HTTPOutcome.connRefused)).length =
        MCP_SERVERS.length) :=
  ⟨by decide, by decide,
    check_server_failure_categories (Server.mk "Memory" 13000) MCP_SERVERS
      (fun _ => HTTPOutcome.connRefused) 404 "Not Found" none .sockTimeout
      (by decide) (by decide)⟩

end WaveTerm
